import Mathlib

/-!
# Verification of the ZenML model-version reference resolver

Shallow embedding of `src/zenml/model/model.py` (the `Model` class: selector
classification at construction, the get-or-create resolver for models and
model versions, the reconciliation diff, the run-scoped reuse scan, and the
lazy version accessor), together with theorems settling the frozen claims.

Python values are modelled as follows: `UUID`s become `Nat`, `int` becomes
`Int`, `float` sleep amounts become exact rationals (`ℚ`), `None`-able values
become `Option`, and raised exceptions become an `Except` result.  Store
calls performed during one resolution are recorded in an explicit trace, and
logger output in an explicit log list, so that claims about "no store call"
or "a warning is logged" are statable.  External concurrent mutation of the
store is modelled by indexing the oracle for `get_model` by the number of
prior `get_model` calls in the same resolution, and the oracle for
`create_model_version` by the attempt index of the retry loop.
-/

namespace ZenML

/-- Modelled from the spec: the stage enumeration (`zenml.enums.ModelStages`)
is not under `src/`; the spec names `"staging"` and `"production"` as stage
values (§8) and describes stages as a small fixed enum of lowercase words.
We use the known lowercase stage words of the repository's enum. -/
inductive ModelStages where
  | none_
  | staging
  | production
  | archived
  | latest
deriving DecidableEq, Repr

/-- The string value of a stage enum member (`stage.value` in Python). -/
def ModelStages.value : ModelStages → String
  | .none_ => "none"
  | .staging => "staging"
  | .production => "production"
  | .archived => "archived"
  | .latest => "latest"

/-- `ModelStages.values()` of the source: the list of all stage values. -/
def ModelStages.values : List String :=
  ["none", "staging", "production", "archived", "latest"]

/-- The possible non-`None` values of the `version` field of `Model`
(`Union[ModelStages, int, str]`). -/
inductive MVersion where
  | stage (s : ModelStages)
  | int (n : Int)
  | str (s : String)
deriving DecidableEq, Repr

/-- `str(v)` for a version value.  The repository's `StrEnum` overrides
`__str__` to return the member's value, so `str` of a stage is its value. -/
def MVersion.pyStr : MVersion → String
  | .stage s => s.value
  | .int n => toString n
  | .str s => s

/-- `str(version)` where `version` may be `None` (Python `str(None)`). -/
def pyStrOpt : Option MVersion → String
  | none => "None"
  | some v => v.pyStr

/-- Python truthiness of the `version` field: `None` is falsy, `0` is falsy,
the empty string is falsy, stage members are nonempty strings hence truthy. -/
def versionTruthy : Option MVersion → Bool
  | none => false
  | some (.stage _) => true
  | some (.int n) => n != 0
  | some (.str s) => s.length != 0

/-- Python truthiness of an optional string (`None` and `""` are falsy). -/
def strTruthy : Option String → Bool
  | none => false
  | some s => s.length != 0

/-- `str.isnumeric` restricted to ASCII digit strings (nonempty, all digits);
the Python original additionally accepts non-ASCII numerics, which cannot
appear in the stage-word / decimal-number cases the source tests. -/
def pyIsNumeric (s : String) : Bool :=
  s.length != 0 && s.toList.all Char.isDigit

/-- Python `str.lower`, modelled characterwise (ASCII); Lean's own
`String.toLower` is not used because it does not reduce in the kernel. -/
def pyLower (s : String) : String := ⟨s.data.map Char.toLower⟩

/-- The membership test of the construction-time validator:
`version in [stage.value for stage in ModelStages]`.  A stage member is a
`str` subclass equal to its value, so it is a member; an `int` never equals
any of the string values; `None` is not a member.  The test is exact,
case-sensitive string equality. -/
def versionMatchesStageValue : Option MVersion → Bool
  | none => false
  | some (.stage _) => true
  | some (.int _) => false
  | some (.str s) => ModelStages.values.contains s

/-- The `Model` pydantic object: the user-facing model-version reference.
`UUID` fields are modelled as `Nat`.  Private attributes keep their source
names. -/
structure Model where
  name : String
  license : Option String := none
  description : Option String := none
  audience : Option String := none
  use_cases : Option String := none
  limitations : Option String := none
  trade_offs : Option String := none
  ethics : Option String := none
  tags : Option (List String) := none
  version : Option MVersion := none
  save_models_to_registry : Bool := true
  model_version_id : Option Nat := none
  suppress_class_validation_warnings : Bool := false
  was_created_in_this_run : Bool := false
  _model_id : Option Nat := none
  _number : Option Int := none
  _created_model_version : Bool := false
deriving DecidableEq, Repr

/-- Response for a model entity (`ModelResponse`); only the field the source
reads (`id`) is modelled. -/
structure ModelResponse where
  id : Nat
deriving DecidableEq, Repr

/-- A tag attached to a stored model version; the source reads `t.name`. -/
structure TagResponse where
  name : String
deriving DecidableEq, Repr

/-- Response for a model version entity (`ModelVersionResponse`); the fields
the source reads.  `metadata` is modelled by its truthiness, which is all
the source tests. -/
structure ModelVersionResponse where
  id : Nat
  model : ModelResponse
  number : Int
  name : String
  stage : Option String := none
  description : Option String := none
  tags : List TagResponse := []
  metadata : Bool := false
deriving DecidableEq, Repr

/-- The `ModelRequest` the source builds in `_get_or_create_model`
(identity fields `user`/`workspace` are external collaborators, out of
scope per spec §1, and are omitted). -/
structure ModelRequest where
  name : String
  license : Option String := none
  description : Option String := none
  audience : Option String := none
  use_cases : Option String := none
  limitations : Option String := none
  trade_offs : Option String := none
  ethics : Option String := none
  save_models_to_registry : Bool := true
deriving DecidableEq, Repr

/-- The `ModelVersionRequest` the source builds in
`_get_or_create_model_version` (again without the external identity
fields). -/
structure ModelVersionRequest where
  name : Option String
  description : Option String
  model : Nat
  tags : Option (List String)
deriving DecidableEq, Repr

/-- Exceptions raised by the embedded code.  Raise sites that format an
error message are modelled by a structured constructor carrying exactly the
identity data interpolated into the message. -/
inductive PyErr where
  /-- `KeyError`: a store lookup missed. -/
  | keyError
  /-- `ValueError` of the construction validator (`model_version_id` is
  internal-use only). -/
  | valueError
  /-- `RuntimeError`: "Cannot create a model version named ... as it matches
  one of the possible model version stages ...". -/
  | reservedStageName (version : Option MVersion) (name : String)
  /-- `RuntimeError`: "Cannot create a model version named ... as numeric
  model version names are reserved ...". -/
  | reservedNumericName (version : Option MVersion) (name : String)
  /-- `RuntimeError`: "Failed to create model version ... in model ....
  Retried ... times ...". -/
  | retriesExhausted (version : Option MVersion) (name : String) (retries_made : Nat)
  /-- Any store-raised error other than the uniqueness conflict. -/
  | storeError (msg : String)
deriving DecidableEq, Repr

/-- Outcome of `zen_store.create_model`. -/
inductive CreateModelOutcome where
  | ok (m : ModelResponse)
  | entityExists
  | otherError (msg : String)
deriving Repr

/-- Outcome of `zen_store.create_model_version`. -/
inductive CreateVersionOutcome where
  | ok (mv : ModelVersionResponse)
  | entityExists
  | otherError (msg : String)
deriving Repr

/-- The store/client collaborator (spec §6).  `get_model` takes the number
of prior `get_model` calls in the same resolution and `create_model_version`
the retry-loop attempt index, so that concurrent external mutation between
calls is expressible.  `format_name_template` is the external templated-name
formatter, out of scope per spec §1. -/
structure Store where
  get_model : Nat → String → Option ModelResponse
  create_model : ModelRequest → CreateModelOutcome
  get_model_version_by_id : Nat → Option ModelVersionResponse
  get_model_version : String → Option MVersion → Option ModelVersionResponse
  create_model_version : Nat → ModelVersionRequest → CreateVersionOutcome
  format_name_template : String → String

/-- One store call, as recorded in a resolution's trace. -/
inductive StoreCall where
  | getModel (callIdx : Nat) (name : String)
  | createModel (req : ModelRequest)
  | getVersionById (id : Nat)
  | getVersion (modelName : String) (selector : Option MVersion)
  | createVersion (attempt : Nat) (req : ModelVersionRequest)
deriving DecidableEq, Repr

/-- `true` exactly on version-creation store calls. -/
def StoreCall.isCreateVersion : StoreCall → Bool
  | .createVersion _ _ => true
  | _ => false

/-- `true` exactly on store calls that write (create something). -/
def StoreCall.isWrite : StoreCall → Bool
  | .createVersion _ _ => true
  | .createModel _ => true
  | _ => false

/-- The structured `difference` dictionary of `_get_model_version`. -/
structure VersionDiff where
  /-- the `"description"` entry: (config, db) when present -/
  descriptionDiff : Option (Option String × Option String) := none
  /-- the `"tags added"` entry -/
  tagsAdded : Option (List String) := none
  /-- the `"tags removed"` entry -/
  tagsRemoved : Option (List String) := none
deriving DecidableEq, Repr

/-- Python `if difference:` — the dict is falsy iff it has no entries. -/
def VersionDiff.isEmpty (d : VersionDiff) : Bool :=
  d.descriptionDiff.isNone && d.tagsAdded.isNone && d.tagsRemoved.isNone

/-- One logger event, structured: each constructor is one `logger.*` call
site of the source (plus the `time.sleep` of the retry loop, recorded with
its exact amount), carrying the data interpolated into the message. -/
inductive LogMsg where
  /-- `logger.info` of the validator: version matches a `ModelStages` value. -/
  | stageNotice (version : Option MVersion)
  /-- `logger.info` of the validator: version is numeric. -/
  | numericNotice (version : Option MVersion)
  /-- `logger.info`: "New model ... was created implicitly." -/
  | newModelCreated (name : String)
  /-- `logger.warning` of `_get_model_version`: configuration differs from
  the stored version. -/
  | diffWarning (name : String) (version : Option MVersion) (diff : VersionDiff)
  /-- `logger.debug` + `time.sleep` of the retry loop, with the exact
  back-off amount. -/
  | retrySleep (amount : ℚ)
  /-- `logger.info`: "Created new model version ... for model ....". -/
  | createdVersionInfo (version : Option MVersion) (name : String)
deriving DecidableEq, Repr

/-- `true` exactly on the reconciliation-diff warning events. -/
def LogMsg.isDiffWarning : LogMsg → Bool
  | .diffWarning _ _ _ => true
  | _ => false

/-- The sleep amounts occurring in a log list, in order. -/
def sleepAmounts (logs : List LogMsg) : List ℚ :=
  logs.filterMap fun l => match l with
    | .retrySleep q => some q
    | _ => none

/-- Result of a (possibly failing) operation, with its store-call trace and
its logger output. -/
structure Res (α : Type) where
  result : Except PyErr α
  trace : List StoreCall := []
  logs : List LogMsg := []

/-- The construction-time validator `Model._root_validator`.  It receives the
raw field values, raises `ValueError` when `model_version_id` is supplied
externally, emits the stage / numeric informational notices, and switches the
suppression flag on.  Field values are otherwise returned unchanged. -/
def _root_validator (data : Model) : Except PyErr (Model × List LogMsg) :=
  if !data.suppress_class_validation_warnings && data.model_version_id.isSome then
    .error .valueError
  else
    let logs :=
      (if versionMatchesStageValue data.version
          && !data.suppress_class_validation_warnings
       then [LogMsg.stageNotice data.version] else [])
      ++ (if pyIsNumeric (pyStrOpt data.version)
             && !data.suppress_class_validation_warnings
          then [LogMsg.numericNotice data.version] else [])
    .ok ({ data with suppress_class_validation_warnings := true }, logs)

/-- The `ModelRequest` built by `_get_or_create_model` from the reference's
descriptive fields. -/
def buildModelRequest (m : Model) : ModelRequest :=
  { name := m.name, license := m.license, description := m.description,
    audience := m.audience, use_cases := m.use_cases,
    limitations := m.limitations, trade_offs := m.trade_offs,
    ethics := m.ethics,
    save_models_to_registry := m.save_models_to_registry }

/-- `Model._get_or_create_model`: fetch the parent model by version id if one
is cached, else by name; on a name miss attempt creation, and on a
uniqueness conflict during creation fall back to exactly one re-fetch by
name.  Caches `_model_id` on success. -/
def _get_or_create_model (store : Store) (m : Model) :
    Res (Model × ModelResponse) :=
  match m.model_version_id with
  | some vid =>
    match store.get_model_version_by_id vid with
    | some mv =>
      { result := .ok ({ m with _model_id := some mv.model.id }, mv.model),
        trace := [.getVersionById vid] }
    | none =>
      { result := .error .keyError, trace := [.getVersionById vid] }
  | none =>
    match store.get_model 0 m.name with
    | some model =>
      { result := .ok ({ m with _model_id := some model.id }, model),
        trace := [.getModel 0 m.name] }
    | none =>
      let req := buildModelRequest m
      match store.create_model req with
      | .ok model =>
        { result := .ok ({ m with _model_id := some model.id }, model),
          trace := [.getModel 0 m.name, .createModel req],
          logs := [.newModelCreated m.name] }
      | .entityExists =>
        match store.get_model 1 m.name with
        | some model =>
          { result := .ok ({ m with _model_id := some model.id }, model),
            trace := [.getModel 0 m.name, .createModel req, .getModel 1 m.name] }
        | none =>
          { result := .error .keyError,
            trace := [.getModel 0 m.name, .createModel req, .getModel 1 m.name] }
      | .otherError e =>
        { result := .error (.storeError e),
          trace := [.getModel 0 m.name, .createModel req] }

/-- Set equality of two Python sets represented as lists. -/
def listSetEq (xs ys : List String) : Bool :=
  xs.all ys.contains && ys.all xs.contains

/-- `list(set(xs) - set(ys))`: set difference, deduplicated (Python's set
iteration order is unspecified; we keep first occurrences). -/
def listSetDiff (xs ys : List String) : List String :=
  (xs.filter fun t => !ys.contains t).dedup

/-- The `difference` dictionary computed by `_get_model_version`: the
description entry is only considered when the fetched version's metadata is
present (truthy) and the caller declared a (truthy) description differing
from the stored one; the tag entries when the caller declared a truthy tag
list whose set differs from the stored tag-name set. -/
def computeDifference (m : Model) (mv : ModelVersionResponse) : VersionDiff :=
  let descDiff : Option (Option String × Option String) :=
    if mv.metadata && strTruthy m.description && mv.description != m.description
    then some (m.description, mv.description) else none
  let tagPart : Option (List String) × Option (List String) :=
    match m.tags with
    | some tags =>
      if tags.length != 0 then
        let configured_tags := tags
        let db_tags := mv.tags.map TagResponse.name
        if !listSetEq db_tags configured_tags then
          (some (listSetDiff configured_tags db_tags),
           some (listSetDiff db_tags configured_tags))
        else (none, none)
      else (none, none)
    | none => (none, none)
  { descriptionDiff := descDiff, tagsAdded := tagPart.1,
    tagsRemoved := tagPart.2 }

/-- `Model._get_model_version`: fetch a version by cached id if present,
else by (model name, version selector), caching `model_version_id` in the
latter case; then compute the reconciliation difference against the caller's
declared description/tags and log it as a warning when non-empty.  A miss
raises `KeyError`. -/
def _get_model_version (store : Store) (m : Model) (hydrate : Bool := true) :
    Res (Model × ModelVersionResponse) :=
  let fetched : Except PyErr (Model × ModelVersionResponse) × List StoreCall :=
    match m.model_version_id with
    | some vid =>
      match store.get_model_version_by_id vid with
      | some mv => (.ok (m, mv), [.getVersionById vid])
      | none => (.error .keyError, [.getVersionById vid])
    | none =>
      match store.get_model_version m.name m.version with
      | some mv =>
        (.ok ({ m with model_version_id := some mv.id }, mv),
         [.getVersion m.name m.version])
      | none => (.error .keyError, [.getVersion m.name m.version])
  match fetched.1 with
  | .error e => { result := .error e, trace := fetched.2 }
  | .ok (m1, mv) =>
    let difference := computeDifference m1 mv
    { result := .ok (m1, mv), trace := fetched.2,
      logs := if !difference.isEmpty
              then [.diffWarning m1.name m1.version difference] else [] }

/-- The step-execution context: the pipeline run's top-level configured
model reference and the already-configured steps' references, in iteration
order (`context.pipeline_run.config.model` and
`context.pipeline_run.steps.values()`). -/
structure StepContext where
  pipeline_model : Option Model
  step_models : List (Option Model)

/-- The scan over the run's step configurations: the first step whose
configured reference was created in this run, has the target name, and has a
non-`None` version. -/
def stepScan (steps : List (Option Model)) (name : String) : Option Model :=
  match steps with
  | [] => none
  | none :: rest => stepScan rest name
  | some sm :: rest =>
    if sm.was_created_in_this_run && sm.name == name && sm.version.isSome
    then some sm
    else stepScan rest name

/-- The run-scoped reuse lookup of `_get_or_create_model_version`: the
pipeline run's own reference is consulted first, then every step's
reference in order. -/
def findReuseInContext (c : StepContext) (name : String) : Option Model :=
  match c.pipeline_model with
  | some pm =>
    if pm.was_created_in_this_run && pm.name == name && pm.version.isSome
    then some pm
    else stepScan c.step_models name
  | none => stepScan c.step_models name

/-- Modelled from the spec: `MAX_RETRIES_FOR_VERSIONED_ENTITY_CREATION` is
defined in `zenml.constants`, which is not under `src/`; the spec fixes its
value at 10 ("up to a fixed maximum attempt count (empirically 10)"). -/
def MAX_RETRIES_FOR_VERSIONED_ENTITY_CREATION : Nat := 10

/-- The smoothed exponential back-off of the retry loop,
`sleep = 0.2 * 1.5 ** i`, with the float literals modelled as the exact
rationals they denote in the source text. -/
def backoffDelay (i : Nat) : ℚ := (2 / 10 : ℚ) * (3 / 2) ^ i

/-- The body of the creation retry loop `for i in range(max): ...` of
`_get_or_create_model_version`, iterating over the remaining attempt
indices: attempt creation; on success break; on a uniqueness conflict at
the last attempt (`i == max - 1`) raise the exhaustion error carrying
`retries_made`, otherwise sleep `0.2 * 1.5 ** i` and continue,
incrementing `retries_made`; any other creation error propagates
immediately.  An exhausted (empty) range leaves `model_version` unbound
(`NameError` in Python). -/
def createLoop (store : Store) (req : ModelVersionRequest) (name : String)
    (version : Option MVersion) (maxr : Nat) (retries_made : Nat) :
    List Nat →
      Except PyErr ModelVersionResponse × List StoreCall × List LogMsg
  | [] => (.error (.storeError "NameError: model_version is unbound"), [], [])
  | i :: rest =>
    match store.create_model_version i req with
    | .ok mv => (.ok mv, [.createVersion i req], [])
    | .entityExists =>
      if i == maxr - 1 then
        (.error (.retriesExhausted version name retries_made),
         [.createVersion i req], [])
      else
        let r := createLoop store req name version maxr (retries_made + 1)
          rest
        (r.1, .createVersion i req :: r.2.1,
         .retrySleep (backoffDelay i) :: r.2.2)
    | .otherError e => (.error (.storeError e), [.createVersion i req], [])

/-- The creation retry loop entered at attempt `i` of `maxr`
(`for i in range(maxr)` starting from `i`). -/
def createAttempts (store : Store) (req : ModelVersionRequest)
    (name : String) (version : Option MVersion)
    (maxr i retries_made : Nat) :
    Except PyErr ModelVersionResponse × List StoreCall × List LogMsg :=
  createLoop store req name version maxr retries_made
    (List.range' i (maxr - i))

/-- `format_name_template` is applied to the version selector exactly when
it is a plain string (`isinstance(self.version, str)`). -/
def applyFmt (store : Store) (v : Option MVersion) : Option MVersion :=
  match v with
  | some (.str s) => some (.str (store.format_name_template s))
  | x => x

/-- The `except KeyError:` branch of `_get_or_create_model_version`: refuse
creation when the (truthy) selector lower-cases to a stage value, then when
its string form is numeric; otherwise run the creation retry loop and, on
success, set `version` to the created version's name and mark
`was_created_in_this_run` and `_created_model_version`. -/
def versionCreationBranch (store : Store) (req : ModelVersionRequest)
    (m : Model) : Res (Model × ModelVersionResponse) :=
  if versionTruthy m.version
     && ModelStages.values.contains (pyLower (pyStrOpt m.version)) then
    { result := .error (.reservedStageName m.version m.name) }
  else if pyIsNumeric (pyStrOpt m.version) then
    { result := .error (.reservedNumericName m.version m.name) }
  else
    let r := createAttempts store req m.name m.version
      MAX_RETRIES_FOR_VERSIONED_ENTITY_CREATION 0 0
    match r.1 with
    | .error e => { result := .error e, trace := r.2.1, logs := r.2.2 }
    | .ok mv =>
      { result := .ok ({ m with version := some (.str mv.name),
                                was_created_in_this_run := true,
                                _created_model_version := true }, mv),
        trace := r.2.1,
        logs := r.2.2 ++ [.createdVersionInfo (some (.str mv.name)) m.name] }

/-- The run-scoped reuse block of the `try:`: when the declared version is
not truthy and a step context is available
(`ctx = none` models `get_step_context()` raising `RuntimeError`), take
the version and version id recorded by a matching reference of the run;
otherwise leave the reference unchanged. -/
def applyReuse (ctx : Option StepContext) (m2 : Model) : Model :=
  if !versionTruthy m2.version then
    match ctx with
    | none => m2
    | some c =>
      match findReuseInContext c m2.name with
      | some pm =>
        { m2 with version := pm.version,
                  model_version_id := pm.model_version_id }
      | none => m2
  else m2

/-- The `try: ... except KeyError: ...` of `_get_or_create_model_version`
after the reuse block: fetch when a truthy selector or a cached version id
is present, entering the creation branch on a fetch `KeyError`; with
neither, `raise KeyError` goes straight to the creation branch. -/
def tryBlock (store : Store) (req : ModelVersionRequest) (m3 : Model) :
    Res (Model × ModelVersionResponse) :=
  if versionTruthy m3.version || m3.model_version_id.isSome then
    let r2 := _get_model_version store m3 true
    match r2.result with
    | .error .keyError =>
      let r3 := versionCreationBranch store req m3
      { result := r3.result, trace := r2.trace ++ r3.trace,
        logs := r2.logs ++ r3.logs }
    | other => { result := other, trace := r2.trace, logs := r2.logs }
  else
    versionCreationBranch store req m3

/-- `Model._get_or_create_model_version`: resolve the parent model, apply
name templating to string selectors, snapshot the `ModelVersionRequest`,
then inside the `try:` consult the run-scoped reuse lookup when no truthy
selector was given, fetch when a truthy selector or a cached version id is
present, and otherwise (or on a fetch `KeyError`) enter the creation branch;
finally cache `model_version_id`, `_model_id` and `_number` on success. -/
def _get_or_create_model_version (store : Store) (ctx : Option StepContext)
    (m : Model) (hydrate : Bool := false) :
    Res (Model × ModelVersionResponse) :=
  let r1 := _get_or_create_model store m
  match r1.result with
  | .error e => { result := .error e, trace := r1.trace, logs := r1.logs }
  | .ok (m1, model) =>
    let m2 := { m1 with version := applyFmt store m1.version }
    let mv_request : ModelVersionRequest :=
      { name := if versionTruthy m2.version then some (pyStrOpt m2.version)
                else none,
        description := m2.description,
        model := model.id,
        tags := m2.tags }
    let m3 := applyReuse ctx m2
    let afterTry := tryBlock store mv_request m3
    match afterTry.result with
    | .error e =>
      { result := .error e, trace := r1.trace ++ afterTry.trace,
        logs := r1.logs ++ afterTry.logs }
    | .ok (m4, mv) =>
      { result := .ok ({ m4 with model_version_id := some mv.id,
                                 _model_id := some mv.model.id,
                                 _number := some mv.number }, mv),
        trace := r1.trace ++ afterTry.trace,
        logs := r1.logs ++ afterTry.logs }

/-- `Model._lazy_version`: the lazy version accessor — `str(self._number)`
when the resolved ordinal is cached, else the string form of the declared
selector (a stage's enum value for stage members), else `None`.  It takes no
store and so can perform no store access and trigger no creation. -/
def _lazy_version (m : Model) : Option String :=
  match m._number with
  | some n => some (toString n)
  | none =>
    match m.version with
    | none => none
    | some (.stage s) => some s.value
    | some v => some v.pyStr

/-- The spec's selector classification type (§4.1). -/
inductive Selector where
  | Unset
  | Explicit (s : String)
  | Numeric (s : String)
  | Stage (s : ModelStages)
deriving DecidableEq, Repr

/-- The stage member with a given value, if any. -/
def ModelStages.ofValue : String → Option ModelStages
  | "none" => some .none_
  | "staging" => some .staging
  | "production" => some .production
  | "archived" => some .archived
  | "latest" => some .latest
  | _ => none

/-- Modelled from the spec: the claim's classification rule, following its
words — a token whose lowercase form matches a stage enum value classifies
as `Stage`, a purely numeric token as `Numeric`, any other token as
`Explicit`, an absent token as `Unset`.  (Compared against the source's
construction-time validator, which tests stage values case-sensitively.) -/
def classifySelectorSpec (v : Option MVersion) : Selector :=
  match v with
  | none => .Unset
  | some tok =>
    match ModelStages.ofValue (pyLower tok.pyStr) with
    | some st => .Stage st
    | none =>
      if pyIsNumeric tok.pyStr then .Numeric tok.pyStr
      else .Explicit tok.pyStr

/-- Modelled from the spec: the claim's (and spec §4.5's) reading of the
lazy accessor — `str` of the resolved ordinal when set, otherwise the
string form of the declared version selector (a stage's enum value for
stage selectors), otherwise `None`. -/
def lazyVersionSpec (m : Model) : Option String :=
  match m._number with
  | some n => some (toString n)
  | none =>
    match m.version with
    | none => none
    | some (.stage s) => some s.value
    | some (.int n) => some (toString n)
    | some (.str s) => some s

/-- `true` exactly on successful results. -/
def exceptIsOk {α : Type} : Except PyErr α → Bool
  | .ok _ => true
  | .error _ => false

/-- `true` exactly on the two reserved-name refusal errors. -/
def PyErr.isReservedName : PyErr → Bool
  | .reservedStageName _ _ => true
  | .reservedNumericName _ _ => true
  | _ => false

/-- `true` exactly when a resolution result is a reserved-name refusal. -/
def resultIsReservedName :
    Except PyErr (Model × ModelVersionResponse) → Bool
  | .error e => e.isReservedName
  | .ok _ => false

/-- The notices emitted by the construction-time validator (empty when the
validator raises). -/
def validatorNotices (data : Model) : List LogMsg :=
  match _root_validator data with
  | .ok (_, logs) => logs
  | .error _ => []

/-! ### Concrete fixtures for counterexamples and witnesses -/

/-- A stored model entity with id 1. -/
def exModelResp : ModelResponse := ⟨1⟩

/-- A stored model version: id 5, ordinal 1, name `"foo"`. -/
def exVersion : ModelVersionResponse :=
  { id := 5, model := ⟨1⟩, number := 1, name := "foo" }

/-- A store where the model `"churn"` exists, every version fetch by
selector misses, and version creation succeeds with `exVersion`. -/
def exStoreMissCreate : Store :=
  { get_model := fun _ n => if n == "churn" then some ⟨1⟩ else none,
    create_model := fun _ => .otherError "unreachable",
    get_model_version_by_id := fun i => if i == 5 then some exVersion else none,
    get_model_version := fun _ _ => none,
    create_model_version := fun _ _ => .ok exVersion,
    format_name_template := fun s => s }

/-- As `exStoreMissCreate`, but every version creation raises the
uniqueness conflict. -/
def exStoreConflict : Store :=
  { exStoreMissCreate with create_model_version := fun _ _ => .entityExists }

/-- As `exStoreMissCreate`, but version creation fails with a
non-uniqueness error. -/
def exStoreCreateFatal : Store :=
  { exStoreMissCreate with
      create_model_version := fun _ _ => .otherError "boom" }

/-- A store modelling the model-creation race: the first `get_model` call
misses, creation reports a uniqueness conflict, the re-fetch hits. -/
def exStoreModelRace : Store :=
  { exStoreMissCreate with
      get_model := fun i n =>
        if i == 0 then none else if n == "churn" then some ⟨1⟩ else none,
      create_model := fun _ => .entityExists }

/-- A store where the model is absent and model creation fails fatally. -/
def exStoreModelFatal : Store :=
  { exStoreModelRace with create_model := fun _ => .otherError "boom" }

/-- A store where the model is absent, model creation succeeds, and every
version fetch by selector misses. -/
def exStoreNewModelMiss : Store :=
  { exStoreMissCreate with
      get_model := fun _ _ => none,
      create_model := fun _ => .ok ⟨1⟩ }

/-- A stored version carrying a description and the tags `{a, b}`, with
metadata present. -/
def exDiffVersion : ModelVersionResponse :=
  { id := 5, model := ⟨1⟩, number := 1, name := "v1",
    description := some "db", tags := [⟨"a"⟩, ⟨"b"⟩], metadata := true }

/-- A store where every selector fetch returns `exDiffVersion`. -/
def exStoreDiff : Store :=
  { exStoreMissCreate with
      get_model_version := fun _ _ => some exDiffVersion,
      get_model_version_by_id := fun i =>
        if i == 5 then some exDiffVersion else none }

/-- A reference with no version selector. -/
def exModelNoSel : Model := { name := "churn" }

/-- A reference with the explicit (non-stage, non-numeric) selector
`"foo"`. -/
def exModelExplicit : Model := { name := "churn", version := some (.str "foo") }

/-- A reference whose selector is the stage word `"staging"` as a plain
string. -/
def exModelStaging : Model :=
  { name := "churn", version := some (.str "staging") }

/-- A reference whose selector is the stage `production`. -/
def exModelProd : Model :=
  { name := "churn", version := some (.stage .production) }

/-- A reference declaring selector `"v1"`, a description, and tags
`{b, c}`. -/
def exModelDecl : Model :=
  { name := "churn", version := some (.str "v1"),
    description := some "cfg", tags := some ["b", "c"] }

/-- A reference as recorded in the run context after an earlier creation:
same name, resolved version name and id, `was_created_in_this_run`. -/
def exReuseRef : Model :=
  { name := "churn", version := some (.str "foo"), model_version_id := some 5,
    was_created_in_this_run := true,
    suppress_class_validation_warnings := true }

/-- A run context whose pipeline-level reference is `exReuseRef`. -/
def exCtx : StepContext :=
  { pipeline_model := some exReuseRef, step_models := [] }

/-- The reference as it looks after a successful fresh creation of
`exVersion` on `exStoreMissCreate`. -/
def exResolvedModel : Model :=
  { exModelNoSel with
      version := some (.str "foo"),
      model_version_id := some 5,
      was_created_in_this_run := true,
      _model_id := some 1,
      _number := some 1,
      _created_model_version := true }

/-! ### Helper lemmas -/

/-- Evaluation of `_get_or_create_model` when the model name is found at
the first lookup. -/
theorem getOrCreateModel_hit (store : Store) (m : Model) (md : ModelResponse)
    (hid : m.model_version_id = none)
    (hget : store.get_model 0 m.name = some md) :
    _get_or_create_model store m =
      { result := .ok ({ m with _model_id := some md.id }, md),
        trace := [.getModel 0 m.name] } := by
  unfold _get_or_create_model
  rw [hid, hget]

/-- The parent-model resolution step never issues a version-creation
call. -/
theorem getOrCreateModel_no_createVersion (store : Store) (m : Model) :
    ((_get_or_create_model store m).trace.any StoreCall.isCreateVersion)
      = false := by
  unfold _get_or_create_model
  rcases m.model_version_id with _ | vid
  · rcases h0 : store.get_model 0 m.name with _ | md
    · rcases hc : store.create_model (buildModelRequest m) with md | _ | e
      · simp [h0, hc, StoreCall.isCreateVersion]
      · rcases h1 : store.get_model 1 m.name with _ | md <;>
          simp [h0, hc, h1, StoreCall.isCreateVersion]
      · simp [h0, hc, StoreCall.isCreateVersion]
    · simp [h0, StoreCall.isCreateVersion]
  · rcases h0 : store.get_model_version_by_id vid with _ | mv <;>
      simp [h0, StoreCall.isCreateVersion]

/-- The version fetch step never issues a version-creation call. -/
theorem getModelVersion_no_createVersion (store : Store) (m : Model)
    (hydrate : Bool) :
    ((_get_model_version store m hydrate).trace.any StoreCall.isCreateVersion)
      = false := by
  unfold _get_model_version
  rcases m.model_version_id with _ | vid
  · rcases h0 : store.get_model_version m.name m.version with _ | mv <;>
      simp [h0, StoreCall.isCreateVersion]
  · rcases h0 : store.get_model_version_by_id vid with _ | mv <;>
      simp [h0, StoreCall.isCreateVersion]

/-- If the retry loop is entered (`i < maxr`), its trace contains a
version-creation call. -/
theorem createAttempts_any_create_of_lt (store : Store)
    (req : ModelVersionRequest) (name : String) (v : Option MVersion)
    (maxr i r : Nat) (hi : i < maxr) :
    (((createAttempts store req name v maxr i r).2.1).any
      StoreCall.isCreateVersion) = true := by
  unfold createAttempts
  have hr : maxr - i = (maxr - i - 1) + 1 := by omega
  rw [hr, List.range'_succ]
  rcases hc : store.create_model_version i req with mv | _ | e
  · simp [createLoop, hc, StoreCall.isCreateVersion]
  · by_cases hl : i = maxr - 1
    · have hl' : (i == maxr - 1) = true := by simp [hl]
      simp [createLoop, hc, hl', StoreCall.isCreateVersion]
    · simp [createLoop, hc, hl, StoreCall.isCreateVersion]
  · simp [createLoop, hc, StoreCall.isCreateVersion]

/-- If the retry loop returned a version, a creation call was issued. -/
theorem createAttempts_ok_any_create (store : Store)
    (req : ModelVersionRequest) (name : String) (v : Option MVersion)
    (maxr i r : Nat) (mv : ModelVersionResponse)
    (h : (createAttempts store req name v maxr i r).1 = .ok mv) :
    (((createAttempts store req name v maxr i r).2.1).any
      StoreCall.isCreateVersion) = true := by
  by_cases hi : i < maxr
  · exact createAttempts_any_create_of_lt store req name v maxr i r hi
  · unfold createAttempts at h
    have hr : maxr - i = 0 := by omega
    rw [hr] at h
    simp [createLoop] at h

/-- The retry loop logs only back-off sleep events. -/
theorem createLoop_logs_only_sleep (store : Store)
    (req : ModelVersionRequest) (name : String) (v : Option MVersion)
    (maxr : Nat) :
    ∀ (l : List Nat) (r : Nat),
      (((createLoop store req name v maxr r l).2.2).all
        fun x => !x.isDiffWarning) = true := by
  intro l
  induction l with
  | nil => intro r; simp [createLoop]
  | cons i rest ih =>
    intro r
    rcases hc : store.create_model_version i req with mv | _ | e
    · simp [createLoop, hc]
    · by_cases hl : i = maxr - 1
      · have hl' : (i == maxr - 1) = true := by simp [hl]
        simp [createLoop, hc, hl']
      · have hl' : (i == maxr - 1) = false := by simp [hl]
        simp only [createLoop, hc, hl', Bool.false_eq_true, if_false,
          List.all_cons, LogMsg.isDiffWarning, Bool.not_false, Bool.true_and]
        exact ih (r + 1)
    · simp [createLoop, hc]

/-- Exact behaviour of the retry loop when every attempt raises the
uniqueness conflict: attempts `i, i+1, ..., maxr-1` are all made, a
back-off sleep of `0.2 * 1.5 ** j` follows each non-final attempt `j`, and
the loop ends with the exhaustion error carrying the number of retries
made. -/
theorem createAttempts_allConflict (store : Store)
    (req : ModelVersionRequest) (name : String) (v : Option MVersion)
    (maxr : Nat)
    (hconf : ∀ j, store.create_model_version j req = .entityExists) :
    ∀ k i r, i < maxr → maxr - 1 - i = k →
      createAttempts store req name v maxr i r =
        (.error (.retriesExhausted v name (r + k)),
         (List.range' i (maxr - i)).map (fun j => .createVersion j req),
         (List.range' i k).map (fun j => .retrySleep (backoffDelay j))) := by
  intro k
  induction k with
  | zero =>
    intro i r hi hk
    unfold createAttempts
    have hr : maxr - i = 1 := by omega
    have he : (i == maxr - 1) = true := by simp; omega
    rw [hr, List.range'_one]
    simp [createLoop, hconf i, he]
  | succ k ih =>
    intro i r hi hk
    unfold createAttempts
    have he : (i == maxr - 1) = false := by simp; omega
    have hrec := ih (i + 1) (r + 1) (by omega) (by omega)
    unfold createAttempts at hrec
    have hr : maxr - i = (maxr - (i + 1)) + 1 := by omega
    have hradd : r + 1 + k = r + (k + 1) := by omega
    rw [hr, List.range'_succ]
    simp only [createLoop, hconf i, he, Bool.false_eq_true, if_false, hrec,
      hradd]
    simp [List.range'_succ]

/-- Reduction of the resolver on the pure creation path: no version
selector, no step context, parent model found at the first lookup.  The
resolver performs the model lookup and then runs the creation retry loop
on the snapshotted request; on success it caches ids, ordinal, the created
version's name and the created-this-run flags. -/
theorem resolver_noSelector_noCtx (store : Store) (m : Model)
    (md : ModelResponse)
    (hv : m.version = none) (hid : m.model_version_id = none)
    (hget : store.get_model 0 m.name = some md) :
    _get_or_create_model_version store none m =
      (let req : ModelVersionRequest :=
        { name := none, description := m.description, model := md.id,
          tags := m.tags }
       let r := createAttempts store req m.name none
         MAX_RETRIES_FOR_VERSIONED_ENTITY_CREATION 0 0
       match r.1 with
       | .error e =>
         { result := .error e, trace := .getModel 0 m.name :: r.2.1,
           logs := r.2.2 }
       | .ok mv =>
         { result := .ok ({ m with _model_id := some mv.model.id,
                                   version := some (.str mv.name),
                                   was_created_in_this_run := true,
                                   _created_model_version := true,
                                   model_version_id := some mv.id,
                                   _number := some mv.number }, mv),
           trace := .getModel 0 m.name :: r.2.1,
           logs := r.2.2
             ++ [.createdVersionInfo (some (.str mv.name)) m.name] }) := by
  have hnum : pyIsNumeric (pyStrOpt none) = false := by decide
  unfold _get_or_create_model_version applyReuse tryBlock
  rw [getOrCreateModel_hit store m md hid hget]
  simp only [hv, hid, applyFmt, versionTruthy, versionCreationBranch, hnum,
    Bool.false_and, Bool.not_false, Option.isSome_none, Bool.or_false,
    Bool.false_eq_true, if_false]
  rcases hr : (createAttempts store
      { name := none, description := m.description, model := md.id,
        tags := m.tags } m.name none
      MAX_RETRIES_FOR_VERSIONED_ENTITY_CREATION 0 0).1 with e | mv
  · simp [hr, hnum]
  · simp [hr, hnum]

/-- If the very first creation attempt fails with a non-uniqueness error,
the loop stops immediately with that error after a single creation call. -/
theorem createAttempts_fatal_first (store : Store)
    (req : ModelVersionRequest) (name : String) (v : Option MVersion)
    (maxr r : Nat) (h0 : 0 < maxr) (e : String)
    (hf : store.create_model_version 0 req = .otherError e) :
    createAttempts store req name v maxr 0 r =
      (.error (.storeError e), [.createVersion 0 req], []) := by
  unfold createAttempts
  rw [show maxr - 0 = (maxr - 1) + 1 by omega, List.range'_succ]
  simp [createLoop, hf]


/-- On success, the parent-model step changed the reference only by caching
the model id. -/
theorem getOrCreateModel_ok_eq (store : Store) (m m1 : Model)
    (md : ModelResponse)
    (h : (_get_or_create_model store m).result = .ok (m1, md)) :
    m1 = { m with _model_id := some md.id } := by
  unfold _get_or_create_model at h
  rcases hvid : m.model_version_id with _ | vid
  · simp only [hvid] at h
    rcases h0 : store.get_model 0 m.name with _ | md0
    · simp only [h0] at h
      rcases hc : store.create_model (buildModelRequest m) with md1 | _ | e
      · simp only [hc] at h
        simp at h
        obtain ⟨h1, h2⟩ := h
        subst h2
        simp [h1]
      · simp only [hc] at h
        rcases h1 : store.get_model 1 m.name with _ | md2
        · simp only [h1] at h; simp at h
        · simp only [h1] at h; simp at h
          obtain ⟨ha, hb⟩ := h
          subst hb
          simp [ha]
      · simp only [hc] at h; simp at h
    · simp only [h0] at h; simp at h
      obtain ⟨ha, hb⟩ := h
      subst hb
      simp [ha]
  · simp only [hvid] at h
    rcases hbv : store.get_model_version_by_id vid with _ | mv0
    · simp only [hbv] at h; simp at h
    · simp only [hbv] at h; simp at h
      obtain ⟨ha, hb⟩ := h
      subst hb
      simp [ha]

/-- A successful fetch leaves the created-this-run flag unchanged. -/
theorem getModelVersion_ok_wcr (store : Store) (m : Model) (hyd : Bool)
    (m1 : Model) (mv : ModelVersionResponse)
    (h : (_get_model_version store m hyd).result = .ok (m1, mv)) :
    m1.was_created_in_this_run = m.was_created_in_this_run := by
  unfold _get_model_version at h
  rcases hvid : m.model_version_id with _ | vid
  · simp only [hvid] at h
    rcases hf : store.get_model_version m.name m.version with _ | mv0
    · simp only [hf] at h; simp at h
    · simp only [hf] at h; simp at h
      obtain ⟨ha, hb⟩ := h
      subst ha
      rfl
  · simp only [hvid] at h
    rcases hf : store.get_model_version_by_id vid with _ | mv0
    · simp only [hf] at h; simp at h
    · simp only [hf] at h; simp at h
      obtain ⟨ha, hb⟩ := h
      subst ha
      rfl

/-- A successful creation branch marked the reference as created in this
run, recorded the created name, and issued a creation call. -/
theorem versionCreationBranch_ok_eq (store : Store)
    (req : ModelVersionRequest) (m m4 : Model) (mv : ModelVersionResponse)
    (h : (versionCreationBranch store req m).result = .ok (m4, mv)) :
    m4 = { m with version := some (.str mv.name),
                  was_created_in_this_run := true,
                  _created_model_version := true } ∧
    ((versionCreationBranch store req m).trace.any
      StoreCall.isCreateVersion) = true := by
  unfold versionCreationBranch at h ⊢
  rcases hr : (createAttempts store req m.name m.version
      MAX_RETRIES_FOR_VERSIONED_ENTITY_CREATION 0 0).1 with e | mv0
  · by_cases hA1 : versionTruthy m.version = true <;>
      by_cases hA2 : pyLower (pyStrOpt m.version) ∈ ModelStages.values <;>
        by_cases hC : pyIsNumeric (pyStrOpt m.version) = true <;>
          simp [hA1, hA2, hC, hr] at h
  · have hany := createAttempts_ok_any_create store req m.name m.version
      MAX_RETRIES_FOR_VERSIONED_ENTITY_CREATION 0 0 mv0 hr
    by_cases hA1 : versionTruthy m.version = true <;>
      by_cases hA2 : pyLower (pyStrOpt m.version) ∈ ModelStages.values <;>
        by_cases hC : pyIsNumeric (pyStrOpt m.version) = true <;>
          simp [hA1, hA2, hC, hr] at h ⊢ <;>
            (obtain ⟨ha, hb⟩ := h) <;> subst ha <;> subst hb <;>
              exact ⟨rfl, by simpa using hany⟩

/-- The reuse block never touches the created-this-run flag. -/
theorem applyReuse_wcr (ctx : Option StepContext) (m : Model) :
    (applyReuse ctx m).was_created_in_this_run
      = m.was_created_in_this_run := by
  unfold applyReuse
  by_cases hv : (!versionTruthy m.version) = true
  · simp only [hv, if_true]
    rcases ctx with _ | c
    · rfl
    · rcases hfind : findReuseInContext c m.name with _ | pm <;>
        simp [hfind]
  · simp [hv]

/-- On success of the try-block, the created-this-run flag of the result
equals the incoming flag or-ed with whether a creation call was issued. -/
theorem tryBlock_ok_wcr (store : Store) (req : ModelVersionRequest)
    (m3 m4 : Model) (mv : ModelVersionResponse)
    (h : (tryBlock store req m3).result = .ok (m4, mv)) :
    m4.was_created_in_this_run =
      (m3.was_created_in_this_run ||
        ((tryBlock store req m3).trace.any StoreCall.isCreateVersion)) := by
  unfold tryBlock at h ⊢
  by_cases hc : (versionTruthy m3.version || m3.model_version_id.isSome)
      = true
  · simp only [hc, if_true] at h ⊢
    rcases hr2 : (_get_model_version store m3 true).result with e | p
    · cases e with
      | keyError =>
        rcases hr3 : (versionCreationBranch store req m3).result
            with e3 | p3
        · simp [hr2, hr3] at h
        · rcases p3 with ⟨m4c, mvc⟩
          obtain ⟨heq, hany⟩ :=
            versionCreationBranch_ok_eq store req m3 m4c mvc hr3
          simp [hr2, hr3] at h
          obtain ⟨h1, h2⟩ := h
          subst h1
          subst h2
          rw [heq]
          simp [hr2, hr3, List.any_append,
            getModelVersion_no_createVersion store m3 true, hany]
      | valueError => simp [hr2] at h
      | reservedStageName v n => simp [hr2] at h
      | reservedNumericName v n => simp [hr2] at h
      | retriesExhausted v n r => simp [hr2] at h
      | storeError msg => simp [hr2] at h
    · rcases p with ⟨m4f, mvf⟩
      have hwcr := getModelVersion_ok_wcr store m3 true m4f mvf hr2
      simp [hr2] at h
      obtain ⟨h1, h2⟩ := h
      subst h1
      rw [hwcr]
      simp [hr2, getModelVersion_no_createVersion store m3 true]
  · simp only [Bool.not_eq_true] at hc
    simp only [hc, Bool.false_eq_true, if_false] at h ⊢
    obtain ⟨heq, hany⟩ := versionCreationBranch_ok_eq store req m3 m4 mv h
    rw [heq, hany]
    simp

/-- The resolver, staged: once the parent model resolved to `(m1, model)`,
the remainder is the snapshotted request, the reuse block, the try-block
and the final caching, with traces and logs concatenated. -/
theorem resolver_as_stages (store : Store) (ctx : Option StepContext)
    (m : Model) (hydrate : Bool) (m1 : Model) (model : ModelResponse)
    (hr1 : (_get_or_create_model store m).result = .ok (m1, model)) :
    _get_or_create_model_version store ctx m hydrate =
      (let req : ModelVersionRequest :=
        { name := if versionTruthy (applyFmt store m1.version)
                  then some (pyStrOpt (applyFmt store m1.version)) else none,
          description := m1.description,
          model := model.id,
          tags := m1.tags }
       let m3 := applyReuse ctx
         { m1 with version := applyFmt store m1.version }
       let t := tryBlock store req m3
       match t.result with
       | .error e =>
         { result := .error e,
           trace := (_get_or_create_model store m).trace ++ t.trace,
           logs := (_get_or_create_model store m).logs ++ t.logs }
       | .ok (m4, mv) =>
         { result := .ok ({ m4 with model_version_id := some mv.id,
                                    _model_id := some mv.model.id,
                                    _number := some mv.number }, mv),
           trace := (_get_or_create_model store m).trace ++ t.trace,
           logs := (_get_or_create_model store m).logs ++ t.logs }) := by
  unfold _get_or_create_model_version
  simp only [hr1]

/-! ### Claim theorems -/

/-- C4: in the version-creation retry loop the back-off delay before the
next attempt after attempt `i` equals `0.2 * 1.5 ** i`; on a run in which
every attempt conflicts the recorded sleep sequence is exactly
`0.2 * 1.5 ** i` for `i = 0 .. 8`, and the values `0.2, 0.3, 0.45, 0.675,
1.0125` are within `0.01` of the spec's `0.2, 0.3, 0.45, 0.68, 1.02`. -/
theorem c4_backoff_schedule :
    (∀ (store : Store) (m : Model) (md : ModelResponse),
      m.version = none → m.model_version_id = none →
      store.get_model 0 m.name = some md →
      (∀ j req, store.create_model_version j req = .entityExists) →
      sleepAmounts (_get_or_create_model_version store none m).logs =
        (List.range (MAX_RETRIES_FOR_VERSIONED_ENTITY_CREATION - 1)).map
          backoffDelay)
    ∧ (∀ i, backoffDelay i = (2 / 10 : ℚ) * (3 / 2) ^ i)
    ∧ backoffDelay 0 = 2 / 10 ∧ backoffDelay 1 = 3 / 10
    ∧ backoffDelay 2 = 45 / 100
    ∧ |backoffDelay 3 - 68 / 100| ≤ 1 / 100
    ∧ |backoffDelay 4 - 102 / 100| ≤ 1 / 100 := by
  refine ⟨?_, fun i => rfl, by norm_num [backoffDelay],
    by norm_num [backoffDelay], by norm_num [backoffDelay], ?_, ?_⟩
  · intro store m md hv hid hget hconf
    rw [resolver_noSelector_noCtx store m md hv hid hget]
    simp only [createAttempts_allConflict store _ m.name none
      MAX_RETRIES_FOR_VERSIONED_ENTITY_CREATION (fun j => hconf j _)
      (MAX_RETRIES_FOR_VERSIONED_ENTITY_CREATION - 1) 0 0
      (by decide) (by decide)]
    simp only [sleepAmounts, List.filterMap_map, Function.comp_def,
      List.range_eq_range']
    rw [show (fun x => some (backoffDelay x)) = some ∘ backoffDelay from rfl,
      List.filterMap_eq_map]
  · rw [backoffDelay]
    rw [show |(2 / 10 : ℚ) * (3 / 2) ^ 3 - 68 / 100| = 1 / 200 by norm_num]
    norm_num
  · rw [backoffDelay]
    rw [show |(2 / 10 : ℚ) * (3 / 2) ^ 4 - 102 / 100| = 3 / 400 by norm_num]
    norm_num

/-- Witness for C4: on the concrete always-conflicting store the recorded
sleep sequence is the back-off schedule for attempts `0 .. 8`. -/
theorem c4_witness :
    sleepAmounts (_get_or_create_model_version exStoreConflict none
        exModelNoSel).logs = (List.range 9).map backoffDelay :=
  c4_backoff_schedule.1 exStoreConflict exModelNoSel ⟨1⟩ rfl rfl rfl
    (fun _ _ => rfl)

/-- C5: when every creation attempt raises a uniqueness conflict the
resolver makes exactly `MAX_RETRIES_FOR_VERSIONED_ENTITY_CREATION` (10)
creation calls and fails with the exhaustion error carrying the retry
count (9 retries after the first attempt) and the model identity; a
non-uniqueness creation failure is fatal immediately after a single
creation call. -/
theorem c5_retry_exhaustion :
    (∀ (store : Store) (m : Model) (md : ModelResponse),
      m.version = none → m.model_version_id = none →
      store.get_model 0 m.name = some md →
      (∀ j req, store.create_model_version j req = .entityExists) →
      (_get_or_create_model_version store none m).result =
          .error (.retriesExhausted none m.name
            (MAX_RETRIES_FOR_VERSIONED_ENTITY_CREATION - 1)) ∧
        ((_get_or_create_model_version store none m).trace.filter
            StoreCall.isCreateVersion).length =
          MAX_RETRIES_FOR_VERSIONED_ENTITY_CREATION)
    ∧
    (∀ (store : Store) (m : Model) (md : ModelResponse) (e : String),
      m.version = none → m.model_version_id = none →
      store.get_model 0 m.name = some md →
      (∀ req, store.create_model_version 0 req = .otherError e) →
      (_get_or_create_model_version store none m).result =
          .error (.storeError e) ∧
        ((_get_or_create_model_version store none m).trace.filter
            StoreCall.isCreateVersion).length = 1) := by
  constructor
  · intro store m md hv hid hget hconf
    rw [resolver_noSelector_noCtx store m md hv hid hget]
    simp only [createAttempts_allConflict store _ m.name none
      MAX_RETRIES_FOR_VERSIONED_ENTITY_CREATION (fun j => hconf j _)
      (MAX_RETRIES_FOR_VERSIONED_ENTITY_CREATION - 1) 0 0
      (by decide) (by decide)]
    simp [List.filter_cons, StoreCall.isCreateVersion, List.filter_map,
      Function.comp_def]
  · intro store m md e hv hid hget hfatal
    rw [resolver_noSelector_noCtx store m md hv hid hget]
    simp only [createAttempts_fatal_first store _ m.name none
      MAX_RETRIES_FOR_VERSIONED_ENTITY_CREATION 0 (by decide) e (hfatal _)]
    simp [StoreCall.isCreateVersion]

/-- Witness for C5: both parts at concrete stores — the always-conflicting
store yields the exhaustion error after exactly 10 creation calls, and the
fatally-failing store stops after one. -/
theorem c5_witness :
    ((_get_or_create_model_version exStoreConflict none exModelNoSel).result =
        .error (.retriesExhausted none "churn" 9) ∧
      ((_get_or_create_model_version exStoreConflict none
          exModelNoSel).trace.filter StoreCall.isCreateVersion).length = 10) ∧
    ((_get_or_create_model_version exStoreCreateFatal none
        exModelNoSel).result = .error (.storeError "boom") ∧
      ((_get_or_create_model_version exStoreCreateFatal none
          exModelNoSel).trace.filter StoreCall.isCreateVersion).length = 1) :=
  ⟨c5_retry_exhaustion.1 exStoreConflict exModelNoSel ⟨1⟩ rfl rfl rfl
      (fun _ _ => rfl),
    c5_retry_exhaustion.2 exStoreCreateFatal exModelNoSel ⟨1⟩ "boom" rfl rfl
      rfl (fun _ => rfl)⟩


/-- Reduction of the resolver when a truthy version selector is declared,
the parent model is found, and the selector fetch misses: the `KeyError`
is caught and the creation branch runs on the request snapshotted before
the fetch. -/
theorem resolver_selector_miss (store : Store) (ctx : Option StepContext)
    (m : Model) (md : ModelResponse)
    (hid : m.model_version_id = none)
    (hget : store.get_model 0 m.name = some md)
    (htr : versionTruthy (applyFmt store m.version) = true)
    (hmiss : store.get_model_version m.name (applyFmt store m.version)
      = none) :
    _get_or_create_model_version store ctx m =
      (let m3 : Model := { m with _model_id := some md.id,
                                  version := applyFmt store m.version }
       let req : ModelVersionRequest :=
        { name := some (pyStrOpt (applyFmt store m.version)),
          description := m.description, model := md.id, tags := m.tags }
       let r3 := versionCreationBranch store req m3
       match r3.result with
       | .error e =>
         { result := .error e,
           trace := .getModel 0 m.name ::
             .getVersion m.name (applyFmt store m.version) :: r3.trace,
           logs := r3.logs }
       | .ok (m4, mv) =>
         { result := .ok ({ m4 with model_version_id := some mv.id,
                                    _model_id := some mv.model.id,
                                    _number := some mv.number }, mv),
           trace := .getModel 0 m.name ::
             .getVersion m.name (applyFmt store m.version) :: r3.trace,
           logs := r3.logs }) := by
  unfold _get_or_create_model_version applyReuse tryBlock _get_model_version
  rw [getOrCreateModel_hit store m md hid hget]
  simp only [htr, hid, hmiss, Bool.not_true, Bool.false_eq_true, if_false,
    Bool.true_or]
  rcases hr : (versionCreationBranch store
      { name := some (pyStrOpt (applyFmt store m.version)),
        description := m.description, model := md.id, tags := m.tags }
      { m with _model_id := some md.id,
               version := applyFmt store m.version }).result with e | p
  · simp [hr]
  · rcases p with ⟨m4, mv⟩
    simp [hr]

/-- C1, counterexample: for the reference `churn` with the explicit
selector `"foo"` (neither a stage word nor numeric) and a store on which
the version fetch misses, the resolver does not fail — it issues a
version-creation call and succeeds, so a miss under a present selector is
not always terminal. -/
theorem c1_counterexample :
    exceptIsOk (_get_or_create_model_version exStoreMissCreate none
      exModelExplicit).result = true ∧
    ((_get_or_create_model_version exStoreMissCreate none
      exModelExplicit).trace.any StoreCall.isCreateVersion) = true := by
  constructor <;> rfl

/-- C1, amended: for every Model whose (template-formatted) version
selector is truthy and reserved — it lower-cases to a stage value or its
string form is purely numeric — a store miss on the version fetch fails
with the reserved-name error telling the caller the version may not exist,
and no version-creation call is issued; only such selectors make a miss
terminal, while an explicit non-reserved name is converted into creation
(see the counterexample). -/
theorem c1_amended_reserved_selector_miss (store : Store)
    (ctx : Option StepContext) (m : Model) (md : ModelResponse)
    (hid : m.model_version_id = none)
    (hget : store.get_model 0 m.name = some md)
    (htr : versionTruthy (applyFmt store m.version) = true)
    (hres : ModelStages.values.contains
        (pyLower (pyStrOpt (applyFmt store m.version))) = true
      ∨ pyIsNumeric (pyStrOpt (applyFmt store m.version)) = true)
    (hmiss : store.get_model_version m.name (applyFmt store m.version)
      = none) :
    ((_get_or_create_model_version store ctx m).result =
        .error (.reservedStageName (applyFmt store m.version) m.name) ∨
      (_get_or_create_model_version store ctx m).result =
        .error (.reservedNumericName (applyFmt store m.version) m.name)) ∧
    ((_get_or_create_model_version store ctx m).trace.any
      StoreCall.isCreateVersion) = false := by
  rw [resolver_selector_miss store ctx m md hid hget htr hmiss]
  by_cases hst : ModelStages.values.contains
      (pyLower (pyStrOpt (applyFmt store m.version))) = true
  · have hst' : pyLower (pyStrOpt (applyFmt store m.version))
        ∈ ModelStages.values := by simpa using hst
    simp [versionCreationBranch, htr, hst', StoreCall.isCreateVersion]
  · have hst' : pyLower (pyStrOpt (applyFmt store m.version))
        ∉ ModelStages.values := by simpa using hst
    have hnum : pyIsNumeric (pyStrOpt (applyFmt store m.version)) = true :=
      hres.resolve_left hst
    simp [versionCreationBranch, htr, hst', hnum, StoreCall.isCreateVersion]

/-- Witness for C1 (amended): the spec scenario — stage selector
`production` for `churn` with no version in that stage fails and creates
nothing. -/
theorem c1_witness :
    ((_get_or_create_model_version exStoreMissCreate none exModelProd).result
        = .error (.reservedStageName (some (.stage .production)) "churn") ∨
      (_get_or_create_model_version exStoreMissCreate none exModelProd).result
        = .error (.reservedNumericName (some (.stage .production)) "churn"))
    ∧ ((_get_or_create_model_version exStoreMissCreate none
        exModelProd).trace.any StoreCall.isCreateVersion) = false :=
  c1_amended_reserved_selector_miss exStoreMissCreate none exModelProd ⟨1⟩
    rfl rfl rfl (Or.inl rfl) rfl

/-- C2, counterexample: attempting to resolve the reserved name
`"staging"` is indeed refused with the reserved-name error, but only after
a model lookup and a version fetch have already reached the store — the
trace is non-empty at refusal time, refuting "before any store call". -/
theorem c2_counterexample :
    (_get_or_create_model_version exStoreMissCreate none
        exModelStaging).result =
      .error (.reservedStageName (some (.str "staging")) "churn") ∧
    (_get_or_create_model_version exStoreMissCreate none
        exModelStaging).trace =
      [.getModel 0 "churn", .getVersion "churn" (some (.str "staging"))] := by
  constructor <;> rfl

/-- C2, amended: for every Model whose (template-formatted) selector is
truthy and reserved (stage word case-insensitively, or purely numeric),
once the parent model has been resolved — looked up, and created if
absent — and the version fetch has missed, the refusal fires with no
version-creation call ever reaching the store: the whole trace is exactly
the parent-model resolution calls (which may include a model-creation
write) followed by the single version-fetch attempt. -/
theorem c2_amended_refusal_before_creation (store : Store)
    (ctx : Option StepContext) (m m1 : Model) (md : ModelResponse)
    (hid : m.model_version_id = none)
    (hr1 : (_get_or_create_model store m).result = .ok (m1, md))
    (htr : versionTruthy (applyFmt store m.version) = true)
    (hres : ModelStages.values.contains
        (pyLower (pyStrOpt (applyFmt store m.version))) = true
      ∨ pyIsNumeric (pyStrOpt (applyFmt store m.version)) = true)
    (hmiss : store.get_model_version m.name (applyFmt store m.version)
      = none) :
    (_get_or_create_model_version store ctx m).trace =
      (_get_or_create_model store m).trace ++
        [.getVersion m.name (applyFmt store m.version)] ∧
    ((_get_or_create_model_version store ctx m).trace.any
      StoreCall.isCreateVersion) = false ∧
    resultIsReservedName
      (_get_or_create_model_version store ctx m).result = true := by
  have hm1 := getOrCreateModel_ok_eq store m m1 md hr1
  subst hm1
  rw [resolver_as_stages store ctx m false _ md hr1]
  unfold applyReuse tryBlock _get_model_version
  simp only [htr, hid, hmiss, Bool.not_true, Bool.false_eq_true, if_false,
    Bool.true_or, if_true]
  by_cases hst : ModelStages.values.contains
      (pyLower (pyStrOpt (applyFmt store m.version))) = true
  · have hst2 : pyLower (pyStrOpt (applyFmt store m.version))
        ∈ ModelStages.values := by simpa using hst
    simp [versionCreationBranch, htr, hst2, StoreCall.isCreateVersion,
      resultIsReservedName, PyErr.isReservedName, List.any_append,
      getOrCreateModel_no_createVersion store m]
  · have hst2 : pyLower (pyStrOpt (applyFmt store m.version))
        ∉ ModelStages.values := by simpa using hst
    have hnum : pyIsNumeric (pyStrOpt (applyFmt store m.version)) = true :=
      hres.resolve_left hst
    simp [versionCreationBranch, htr, hst2, hnum,
      StoreCall.isCreateVersion, resultIsReservedName,
      PyErr.isReservedName, List.any_append,
      getOrCreateModel_no_createVersion store m]

/-- Witness for C2 (amended), exercising the absent-parent-model case:
resolving the reserved name `"staging"` on a store with no model first
creates the model (a write that does reach the store), then attempts one
version fetch, and is refused with no version-creation call. -/
theorem c2_witness :
    (_get_or_create_model_version exStoreNewModelMiss none
        exModelStaging).trace =
      (_get_or_create_model exStoreNewModelMiss exModelStaging).trace ++
        [.getVersion "churn" (some (.str "staging"))] ∧
    ((_get_or_create_model_version exStoreNewModelMiss none
        exModelStaging).trace.any StoreCall.isCreateVersion) = false ∧
    resultIsReservedName (_get_or_create_model_version exStoreNewModelMiss
        none exModelStaging).result = true :=
  c2_amended_refusal_before_creation exStoreNewModelMiss none
    exModelStaging { exModelStaging with _model_id := some 1 } ⟨1⟩ rfl
    (by rfl) rfl (Or.inl rfl) rfl

/-- C3, counterexample: the token `"Production"` lower-cases to the stage
value `"production"`, so the claim classifies it as `Stage` with an
informational notice; but the construction-time validator tests stage
values case-sensitively and emits no notice for it (the token is treated
as an ordinary explicit name at construction). -/
theorem c3_counterexample :
    classifySelectorSpec (some (.str "Production")) = .Stage .production ∧
    _root_validator { name := "m", version := some (.str "Production") } =
      .ok ({ name := "m", version := some (.str "Production"),
             suppress_class_validation_warnings := true }, []) := by
  constructor <;> rfl

/-- C3, amended: selector classification at construction is pure and
deterministic, but the stage test is exact (case-sensitive): the stage
notice is emitted iff the token is a stage member or a string exactly
equal to a stage value; the numeric notice iff the token's string form is
purely numeric; an absent token yields no notice.  (Case-insensitive
stage matching happens only later, at the creation-refusal check.) -/
theorem c3_amended_construction_notices (data : Model)
    (hsup : data.suppress_class_validation_warnings = false)
    (hid : data.model_version_id = none) :
    ((LogMsg.stageNotice data.version ∈ validatorNotices data) ↔
      versionMatchesStageValue data.version = true) ∧
    ((LogMsg.numericNotice data.version ∈ validatorNotices data) ↔
      pyIsNumeric (pyStrOpt data.version) = true) ∧
    (data.version = none → validatorNotices data = []) := by
  unfold validatorNotices _root_validator
  simp only [hsup, hid, Option.isSome_none, Bool.not_false, Bool.true_and,
    Bool.and_true, Bool.and_false, Bool.false_eq_true, if_false]
  refine ⟨?_, ?_, ?_⟩
  · cases hA : versionMatchesStageValue data.version <;>
      cases hB : pyIsNumeric (pyStrOpt data.version) <;>
        simp [hA, hB]
  · cases hA : versionMatchesStageValue data.version <;>
      cases hB : pyIsNumeric (pyStrOpt data.version) <;>
        simp [hA, hB]
  · intro hv
    rw [hv]
    simp [versionMatchesStageValue,
      show pyIsNumeric (pyStrOpt none) = false from by decide]

/-- Witness for C3 (amended): the exact-cased token `"production"` gets
the stage notice and no numeric notice. -/
theorem c3_witness :
    ((LogMsg.stageNotice (some (.str "production")) ∈
        validatorNotices { name := "m", version := some (.str "production") })
      ↔ versionMatchesStageValue (some (.str "production")) = true) ∧
    ((LogMsg.numericNotice (some (.str "production")) ∈
        validatorNotices { name := "m", version := some (.str "production") })
      ↔ pyIsNumeric (pyStrOpt (some (.str "production"))) = true) ∧
    ((some (MVersion.str "production") : Option MVersion) = none →
      validatorNotices { name := "m", version := some (.str "production") }
        = []) :=
  c3_amended_construction_notices
    { name := "m", version := some (.str "production") } rfl rfl


/-- C8: when the parent model is absent and its creation raises a
uniqueness conflict (a concurrent creator won the race), the resolver
performs exactly one re-fetch by name and succeeds with the existing
model; any other model-creation failure is surfaced immediately with no
re-fetch. -/
theorem c8_model_conflict_single_refetch :
    (∀ (store : Store) (m : Model) (md : ModelResponse),
      m.model_version_id = none →
      store.get_model 0 m.name = none →
      store.create_model (buildModelRequest m) = .entityExists →
      store.get_model 1 m.name = some md →
      _get_or_create_model store m =
        { result := .ok ({ m with _model_id := some md.id }, md),
          trace := [.getModel 0 m.name, .createModel (buildModelRequest m),
                    .getModel 1 m.name],
          logs := [] })
    ∧
    (∀ (store : Store) (m : Model) (e : String),
      m.model_version_id = none →
      store.get_model 0 m.name = none →
      store.create_model (buildModelRequest m) = .otherError e →
      _get_or_create_model store m =
        { result := .error (.storeError e),
          trace := [.getModel 0 m.name, .createModel (buildModelRequest m)],
          logs := [] }) := by
  constructor
  · intro store m md hid h0 hc h1
    unfold _get_or_create_model
    rw [hid, h0]
    simp only [hc, h1]
  · intro store m e hid h0 hc
    unfold _get_or_create_model
    rw [hid, h0]
    simp only [hc]

/-- Witness for C8: both parts at concrete stores — the racing store
resolves the existing model after exactly one re-fetch; the fatally
failing store surfaces the error after the single creation attempt. -/
theorem c8_witness :
    _get_or_create_model exStoreModelRace exModelNoSel =
      { result := .ok ({ exModelNoSel with _model_id := some 1 }, ⟨1⟩),
        trace := [.getModel 0 "churn",
                  .createModel (buildModelRequest exModelNoSel),
                  .getModel 1 "churn"],
        logs := [] } ∧
    _get_or_create_model exStoreModelFatal exModelNoSel =
      { result := .error (.storeError "boom"),
        trace := [.getModel 0 "churn",
                  .createModel (buildModelRequest exModelNoSel)],
        logs := [] } :=
  ⟨c8_model_conflict_single_refetch.1 exStoreModelRace exModelNoSel ⟨1⟩
      rfl rfl rfl rfl,
    c8_model_conflict_single_refetch.2 exStoreModelFatal exModelNoSel
      "boom" rfl rfl rfl⟩

/-- C10: the lazy version accessor `_lazy_version` is a pure function of
the cached ordinal and the declared selector of the reference — it takes
no store, so it can perform no store access and trigger no creation — and
it agrees with the reading in the claim: `str` of the resolved ordinal
when set, otherwise the string form of the declared selector (the enum
value for stage selectors), otherwise `None`. -/
theorem c10_lazy_version_pure :
    ∀ m : Model, _lazy_version m = lazyVersionSpec m := by
  intro m
  unfold _lazy_version lazyVersionSpec
  rcases m._number with _ | n
  · rcases m.version with _ | v
    · rfl
    · rcases v with s | n | s <;> rfl
  · rfl


/-- C6: within one run, a no-selector resolution for a name that an
earlier reference (pipeline-level or step-level) already created in this
run reuses the recorded version: the run context is consulted, the
recorded version id is fetched (one read, no creation call), and the
resolution ends with exactly that version id, leaving the
created-this-run flag of the resolving reference untouched. -/
theorem c6_run_scoped_reuse (store : Store) (c : StepContext) (m pm : Model)
    (vid : Nat) (md : ModelResponse) (mv : ModelVersionResponse)
    (hv : m.version = none) (hid : m.model_version_id = none)
    (hdesc : m.description = none) (htags : m.tags = none)
    (hfind : findReuseInContext c m.name = some pm)
    (hpmid : pm.model_version_id = some vid)
    (hget : store.get_model 0 m.name = some md)
    (hmv : store.get_model_version_by_id vid = some mv)
    (hcons : mv.id = vid) :
    _get_or_create_model_version store (some c) m =
      { result := .ok ({ m with version := pm.version,
                                model_version_id := some vid,
                                _model_id := some mv.model.id,
                                _number := some mv.number }, mv),
        trace := [.getModel 0 m.name, .getVersionById vid],
        logs := [] } ∧
    ((_get_or_create_model_version store (some c) m).trace.any
      StoreCall.isCreateVersion) = false := by
  have hmain : _get_or_create_model_version store (some c) m =
      { result := .ok ({ m with version := pm.version,
                                model_version_id := some vid,
                                _model_id := some mv.model.id,
                                _number := some mv.number }, mv),
        trace := [.getModel 0 m.name, .getVersionById vid],
        logs := [] } := by
    unfold _get_or_create_model_version applyReuse tryBlock
      _get_model_version
    rw [getOrCreateModel_hit store m md hid hget]
    simp only [hv, hid, applyFmt, versionTruthy, hfind, hpmid, hmv,
      Bool.not_false, Option.isSome_some, Bool.or_true, if_true,
      computeDifference, hdesc, htags, strTruthy, Bool.and_false,
      Bool.false_and, VersionDiff.isEmpty, hcons]
    simp [computeDifference, hdesc, htags, strTruthy, VersionDiff.isEmpty,
      hcons]
  refine ⟨hmain, ?_⟩
  rw [hmain]
  rfl

/-- Witness for C6: with the run context recording the version created
earlier for `churn` (id 5), a no-selector resolution reuses id 5 with no
creation call. -/
theorem c6_witness :
    _get_or_create_model_version exStoreMissCreate (some exCtx)
        exModelNoSel =
      { result := .ok ({ exModelNoSel with
                            version := exReuseRef.version,
                            model_version_id := some 5,
                            _model_id := some 1,
                            _number := some 1 }, exVersion),
        trace := [.getModel 0 "churn", .getVersionById 5], logs := [] } ∧
    ((_get_or_create_model_version exStoreMissCreate (some exCtx)
        exModelNoSel).trace.any StoreCall.isCreateVersion) = false :=
  c6_run_scoped_reuse exStoreMissCreate exCtx exModelNoSel exReuseRef 5 ⟨1⟩
    exVersion rfl rfl rfl rfl rfl rfl rfl rfl rfl


/-- C7: the reconciliation diff is report-only.  (1) On any fetch by
selector, the returned version is exactly the stored one and the
reference changes only by caching the fetched id — declared description
and tags are untouched — the trace is the single read (no write), at most
diff warnings are logged, and nothing is raised.  (2) For stored tags
`{a, b}` against declared `{b, c}` the diff reports added `{c}` and
removed `{a}` (plus the description pair), the warning carries exactly
that diff, and the returned version still holds tags `{a, b}`.  (3) The
pure creation path never logs a diff warning (nothing to diff against). -/
theorem c7_diff_non_mutation :
    (∀ (store : Store) (m : Model) (mv : ModelVersionResponse),
      m.model_version_id = none →
      store.get_model_version m.name m.version = some mv →
      (_get_model_version store m true).result =
          .ok ({ m with model_version_id := some mv.id }, mv) ∧
        (_get_model_version store m true).trace =
          [.getVersion m.name m.version] ∧
        (((_get_model_version store m true).logs.all
          LogMsg.isDiffWarning) = true))
    ∧
    (computeDifference exModelDecl exDiffVersion =
      { descriptionDiff := some (some "cfg", some "db"),
        tagsAdded := some ["c"], tagsRemoved := some ["a"] } ∧
      (_get_model_version exStoreDiff exModelDecl true).result =
        .ok ({ exModelDecl with model_version_id := some 5 },
          exDiffVersion) ∧
      (_get_model_version exStoreDiff exModelDecl true).logs =
        [.diffWarning "churn" (some (.str "v1"))
          { descriptionDiff := some (some "cfg", some "db"),
            tagsAdded := some ["c"], tagsRemoved := some ["a"] }])
    ∧
    (∀ (store : Store) (m : Model) (md : ModelResponse),
      m.version = none → m.model_version_id = none →
      store.get_model 0 m.name = some md →
      ((_get_or_create_model_version store none m).logs.all
        fun l => !l.isDiffWarning) = true) := by
  refine ⟨?_, ⟨by rfl, by rfl, by rfl⟩, ?_⟩
  · intro store m mv hid hfetch
    unfold _get_model_version
    rw [hid, hfetch]
    refine ⟨rfl, rfl, ?_⟩
    by_cases hde : (computeDifference
        { m with model_version_id := some mv.id } mv).isEmpty = true
    · simp [hde]
    · have hde2 : (!(computeDifference
          { m with model_version_id := some mv.id } mv).isEmpty) = true := by
        simp at hde ⊢; exact hde
      simp only [hde2, if_true]
      simp [LogMsg.isDiffWarning]
  · intro store m md hv hid hget
    rw [resolver_noSelector_noCtx store m md hv hid hget]
    rcases hr : (createAttempts store
        { name := none, description := m.description, model := md.id,
          tags := m.tags } m.name none
        MAX_RETRIES_FOR_VERSIONED_ENTITY_CREATION 0 0).1 with e | mv
    · simp only [hr]
      have hl := createLoop_logs_only_sleep store
        { name := none, description := m.description, model := md.id,
          tags := m.tags } m.name none
        MAX_RETRIES_FOR_VERSIONED_ENTITY_CREATION
        (List.range' 0 (MAX_RETRIES_FOR_VERSIONED_ENTITY_CREATION - 0)) 0
      simpa [createAttempts] using hl
    · simp only [hr]
      have hl := createLoop_logs_only_sleep store
        { name := none, description := m.description, model := md.id,
          tags := m.tags } m.name none
        MAX_RETRIES_FOR_VERSIONED_ENTITY_CREATION
        (List.range' 0 (MAX_RETRIES_FOR_VERSIONED_ENTITY_CREATION - 0)) 0
      simp only [List.all_eq_true] at hl
      simp [List.all_append, LogMsg.isDiffWarning]
      intro x hx
      have hx2 := hl x hx
      simpa [LogMsg.isDiffWarning] using hx2

/-- Witness for C7: the concrete diff fetch keeps the stored version
intact and logs only the warning; the concrete creation run logs no diff
warning. -/
theorem c7_witness :
    ((_get_model_version exStoreDiff exModelDecl true).result =
        .ok ({ exModelDecl with model_version_id := some 5 },
          exDiffVersion) ∧
      (_get_model_version exStoreDiff exModelDecl true).trace =
        [.getVersion "churn" (some (.str "v1"))] ∧
      (((_get_model_version exStoreDiff exModelDecl true).logs.all
        LogMsg.isDiffWarning) = true)) ∧
    ((_get_or_create_model_version exStoreMissCreate none
        exModelNoSel).logs.all fun l => !l.isDiffWarning) = true :=
  ⟨c7_diff_non_mutation.1 exStoreDiff exModelDecl exDiffVersion rfl rfl,
    c7_diff_non_mutation.2.2 exStoreMissCreate exModelNoSel ⟨1⟩ rfl rfl rfl⟩


/-- C9: on every successful resolution the resolver caches the resolved
version id, model id and ordinal onto the reference, and the
created-this-run flag ends up true exactly when it was already true or
this call issued a (successful) version-creation call — it is never turned
on by a run-scoped reuse or a fetch of a pre-existing version. -/
theorem c9_success_caching (store : Store) (ctx : Option StepContext)
    (m mr : Model) (mv : ModelVersionResponse) (hydrate : Bool)
    (h : (_get_or_create_model_version store ctx m hydrate).result
      = .ok (mr, mv)) :
    mr.model_version_id = some mv.id ∧
    mr._model_id = some mv.model.id ∧
    mr._number = some mv.number ∧
    mr.was_created_in_this_run =
      (m.was_created_in_this_run ||
        ((_get_or_create_model_version store ctx m hydrate).trace.any
          StoreCall.isCreateVersion)) := by
  rcases hr1 : (_get_or_create_model store m).result with e | p
  · unfold _get_or_create_model_version at h
    simp [hr1] at h
  · rcases p with ⟨m1, model⟩
    have hm1 := getOrCreateModel_ok_eq store m m1 model hr1
    have hw1 : m1.was_created_in_this_run = m.was_created_in_this_run := by
      rw [hm1]
    rw [resolver_as_stages store ctx m hydrate m1 model hr1] at h ⊢
    rcases hty : (tryBlock store
        { name := if versionTruthy (applyFmt store m1.version)
                  then some (pyStrOpt (applyFmt store m1.version)) else none,
          description := m1.description,
          model := model.id,
          tags := m1.tags }
        (applyReuse ctx
          { m1 with version := applyFmt store m1.version })).result
        with e | p4
    · simp [hty] at h
    · rcases p4 with ⟨m4, mv4⟩
      have hw4 := tryBlock_ok_wcr store _ _ m4 mv4 hty
      simp only [hty] at h ⊢
      simp at h
      obtain ⟨h1, h2⟩ := h
      subst h1
      subst h2
      refine ⟨rfl, rfl, rfl, ?_⟩
      show m4.was_created_in_this_run = _
      rw [hw4]
      have hz : (applyReuse ctx
          { m1 with version := applyFmt store m1.version
          }).was_created_in_this_run = m.was_created_in_this_run := by
        rw [applyReuse_wcr]
        rw [show ({ m1 with version := applyFmt store m1.version
          } : Model).was_created_in_this_run
          = m1.was_created_in_this_run from rfl]
        exact hw1
      rw [hz]
      simp [List.any_append,
        getOrCreateModel_no_createVersion store m]

/-- Witness for C9: the concrete fresh-creation resolution caches id 5,
model id 1 and ordinal 1, and the flag is on because a creation call was
issued. -/
theorem c9_witness :
    exResolvedModel.model_version_id = some exVersion.id ∧
    exResolvedModel._model_id = some exVersion.model.id ∧
    exResolvedModel._number = some exVersion.number ∧
    exResolvedModel.was_created_in_this_run =
      (exModelNoSel.was_created_in_this_run ||
        ((_get_or_create_model_version exStoreMissCreate none exModelNoSel
          false).trace.any StoreCall.isCreateVersion)) :=
  c9_success_caching exStoreMissCreate none exModelNoSel exResolvedModel
    exVersion false (by rfl)

end ZenML
